import Mathlib

/-
Verification of the Goodblue strategy app.

Shallow embedding of the content-generation code (src/generate.py,
src/swot_prompts.py) and the deck-building code (src/export_ppt.py),
together with proofs settling the specification claims.

Conventions of the embedding:
* Python JSON-like values are modelled by the inductive `PyVal`
  (None / bool / int / str / list / dict); a dict is an association list.
* `json.loads` is a Python standard-library function, not repository code;
  it is modelled as an abstract parameter `parse : String → Option PyVal`
  (`none` models a parse failure, i.e. `json.loads` raising).
* A raising Python call is modelled with `Except String`; the error value
  stands for the exception.
* Geometry in export_ppt.py is measured in EMU (914400 per inch, as in
  python-pptx `Inches`).  Because `width/2` in the source produces exact
  halves of EMU values, all lengths here are in HALF-EMU (hemu), so every
  quantity of the source is an exact integer.
-/

set_option linter.unusedVariables false

/-! ## Python value model and small helpers -/

/-- JSON-like Python values: None, bool, int, str, list, dict. -/
inductive PyVal where
  | null
  | b (v : Bool)
  | i (v : Int)
  | s (v : String)
  | lst (v : List PyVal)
  | dct (v : List (String × PyVal))
deriving Inhabited

/-- `d.get(k)` on a Python dict (association list, first binding wins). -/
def pyLookup (k : String) (d : List (String × PyVal)) : Option PyVal :=
  (d.find? (fun kv => kv.1 == k)).map (fun kv => kv.2)

/-- Python truthiness of a `PyVal`. -/
def pyTruthy : PyVal → Bool
  | .null => false
  | .b v => v
  | .i v => v != 0
  | .s v => v != ""
  | .lst v => !v.isEmpty
  | .dct v => !v.isEmpty

/-- The apostrophe character, kept out of literals. -/
def apostrophe : String := String.singleton (Char.ofNat 39)

/-- Opening curly brace character. -/
def braceOpen : Char := Char.ofNat 123

/-- Closing curly brace character. -/
def braceClose : Char := Char.ofNat 125

/-- Python `repr` of a JSON-like value (as used by `str` on containers).
Strings are shown in single quotes; this is the approximation of CPython
repr sufficient for this development (no claim depends on its output). -/
def pyReprOne : PyVal → String
  | .null => "None"
  | .b true => "True"
  | .b false => "False"
  | .i v => toString v
  | .s v => apostrophe ++ v ++ apostrophe
  | .lst v =>
    "[" ++ String.intercalate ", "
      (v.attach.map (fun x => pyReprOne x.1)) ++ "]"
  | .dct v =>
    "\x7b" ++ String.intercalate ", "
      (v.attach.map (fun x =>
        apostrophe ++ x.1.1 ++ apostrophe ++ ": " ++ pyReprOne x.1.2)) ++ "\x7d"
termination_by v => sizeOf v
decreasing_by
  · have := List.sizeOf_lt_of_mem x.2
    simp only [PyVal.lst.sizeOf_spec]
    omega
  · have h1 := List.sizeOf_lt_of_mem x.2
    have h2 : sizeOf x.1.2 < sizeOf x.1 := by
      obtain ⟨a, b⟩ := x.1
      simp only [Prod.mk.sizeOf_spec]
      omega
    simp only [PyVal.dct.sizeOf_spec]
    omega

/-- Python `str` of a JSON-like value. -/
def pyStr : PyVal → String
  | .null => "None"
  | .b true => "True"
  | .b false => "False"
  | .i v => toString v
  | .s v => v
  | .lst v => "[" ++ String.intercalate ", " (v.map pyReprOne) ++ "]"
  | .dct v =>
    "\x7b" ++ String.intercalate ", "
      (v.map (fun kv =>
        apostrophe ++ kv.1 ++ apostrophe ++ ": " ++ pyReprOne kv.2)) ++ "\x7d"

/-- Characters removed by Python `str.strip()` (ASCII whitespace). -/
def isPySpace (c : Char) : Bool :=
  c = ' ' || c = '\t' || c = '\n' || c = '\r' || c = '\x0b' || c = '\x0c'

/-- Python `str.strip()` on a character list. -/
def pyStripList (l : List Char) : List Char :=
  ((l.dropWhile isPySpace).reverse.dropWhile isPySpace).reverse

/-- Python `str.strip()`. -/
def pyStrip (s : String) : String := String.mk (pyStripList s.toList)

/-- `v or d` for an optional Python string (missing / None / "" are falsy). -/
def pyOrS (v : Option String) (d : String) : String :=
  match v with
  | none => d
  | some s => if s = "" then d else s

/-- `v or d` for an optional Python list (missing / None / [] are falsy). -/
def pyOrList (v : Option (List String)) (d : List String) : List String :=
  match v with
  | none => d
  | some [] => d
  | some l => l

/-! ## generate.py: `_coerce_list`, `_topn`, `_extract_json` -/

/-- `_coerce_list` from generate.py: None becomes `[]`; a list keeps the
stripped `str` of each truthy element; a scalar becomes a singleton when
its stripped `str` is nonempty. -/
def coerce_list (x : Option PyVal) : List String :=
  match x with
  | none => []
  | some .null => []
  | some (.lst l) =>
    l.filterMap (fun item =>
      let t := pyStrip (pyStr item)
      if t = "" then none else some t)
  | some v =>
    let t := pyStrip (pyStr v)
    if t = "" then [] else [t]

/-- `_topn` from generate.py: truncate a list to its first `n` items. -/
def topn (items : List String) (n : Nat := 6) : List String :=
  if items.length > n then items.take n else items

/-- Suffix of the text starting at its first opening brace
(`none` when there is no opening brace). -/
def dropToBrace : List Char → Option (List Char)
  | [] => none
  | c :: cs => if c = braceOpen then some (c :: cs) else dropToBrace cs

/-- The match of the regex `\x7b[\s\S]*\x7d` in `_extract_json`
(re.search, greedy): the substring from the first opening brace to the
last closing brace, provided a closing brace occurs after the first
opening brace. -/
def firstBraceBlock (text : String) : Option String :=
  match dropToBrace text.toList with
  | none => none
  | some suf =>
    let kept := (suf.reverse.dropWhile (fun c => !(c = braceClose))).reverse
    if kept.isEmpty then none else some (String.mk kept)

/-- `_extract_json` from generate.py.  `parse` models `json.loads`
(`none` = raise).  Empty text returns `\x7b\x7d`; otherwise try a direct
parse; on failure retry on the first brace-delimited block; on total
failure return the empty dict. -/
def extract_json (parse : String → Option PyVal) (text : String) : PyVal :=
  if text = "" then .dct []
  else
    match parse text with
    | some v => v
    | none =>
      match firstBraceBlock text with
      | some b => (parse b).getD (.dct [])
      | none => .dct []

/-! ### Lemmas on `firstBraceBlock` -/

lemma dropToBrace_spec :
    ∀ l suf, dropToBrace l = some suf →
      suf.head? = some braceOpen ∧ ∃ u, l = u ++ suf := by
  intro l
  induction l with
  | nil => intro suf h; simp [dropToBrace] at h
  | cons c cs ih =>
    intro suf h
    by_cases hc : c = braceOpen
    · simp [dropToBrace, hc] at h
      subst h
      subst hc
      exact ⟨rfl, ⟨[], by simp⟩⟩
    · simp [dropToBrace, hc] at h
      obtain ⟨hh, u, hu⟩ := ih suf h
      exact ⟨hh, ⟨c :: u, by simp [hu]⟩⟩

lemma dropWhile_head_false {α : Type} (p : α → Bool) :
    ∀ (l : List α) c rest, l.dropWhile p = c :: rest → p c = false := by
  intro l
  induction l with
  | nil => intro c rest h; simp [List.dropWhile] at h
  | cons a as ih =>
    intro c rest h
    by_cases ha : p a
    · rw [List.dropWhile_cons_of_pos ha] at h
      exact ih c rest h
    · rw [List.dropWhile_cons_of_neg ha] at h
      cases h
      simpa using ha

lemma dropWhile_is_suffix {α : Type} (p : α → Bool) :
    ∀ (l : List α), ∃ u, l = u ++ l.dropWhile p := by
  intro l
  induction l with
  | nil => exact ⟨[], rfl⟩
  | cons a as ih =>
    by_cases ha : p a
    · rw [List.dropWhile_cons_of_pos ha]
      obtain ⟨u, hu⟩ := ih
      exact ⟨a :: u, by simp [← hu]⟩
    · rw [List.dropWhile_cons_of_neg ha]
      exact ⟨[], rfl⟩

lemma firstBraceBlock_shape (text : String) (b : String)
    (h : firstBraceBlock text = some b) :
    b.toList.head? = some braceOpen ∧
    b.toList.getLast? = some braceClose ∧
    ∃ u w, text.toList = u ++ b.toList ++ w := by
  unfold firstBraceBlock at h
  cases hd : dropToBrace text.toList with
  | none => rw [hd] at h; simp at h
  | some suf =>
    rw [hd] at h
    simp only at h
    obtain ⟨hhead, u, hu⟩ := dropToBrace_spec _ _ hd
    set kept := (suf.reverse.dropWhile (fun c => !(c = braceClose))).reverse with hkept
    by_cases hk : kept.isEmpty
    · simp [hk] at h
    · simp [hk] at h
      subst h
      -- kept is a nonempty prefix of suf
      obtain ⟨v, hv⟩ := dropWhile_is_suffix (fun c => !(c = braceClose)) suf.reverse
      have hsuf : suf = kept ++ v.reverse := by
        have := congrArg List.reverse hv
        simpa [hkept] using this
      have hkne : kept ≠ [] := by
        intro hnil; rw [hnil] at hk; simp at hk
      constructor
      · -- head of kept = head of suf = braceOpen
        have : (String.mk kept).toList = kept := rfl
        rw [this]
        cases hcons : kept with
        | nil => exact absurd hcons hkne
        | cons k0 ks =>
          rw [hsuf, hcons] at hhead
          simpa using hhead
      constructor
      · -- last of kept is braceClose
        have : (String.mk kept).toList = kept := rfl
        rw [this]
        cases hdw : suf.reverse.dropWhile (fun c => !(c = braceClose)) with
        | nil =>
          exfalso; apply hkne
          rw [hkept, hdw]; rfl
        | cons c rest =>
          have hc := dropWhile_head_false _ _ _ _ hdw
          have hcq : c = braceClose := by simpa using hc
          rw [hkept, hdw]
          simp [hcq]
      · -- kept is an infix of the original text
        refine ⟨u, v.reverse, ?_⟩
        have : (String.mk kept).toList = kept := rfl
        rw [this, hu, hsuf]
        simp

/-- C6: for every input string, `_extract_json` first attempts to parse the
whole text as JSON; if direct parsing fails it retries on the first
brace-delimited block (which starts at the first opening brace, ends at a
closing brace and is a substring of the text); and on total failure —
including empty input — it returns the empty mapping. -/
theorem extract_json_spec (parse : String → Option PyVal) (text : String)
    (v : PyVal) (b : String) :
    (text = "" → extract_json parse text = .dct []) ∧
    (text ≠ "" → parse text = some v → extract_json parse text = v) ∧
    (text ≠ "" → parse text = none → firstBraceBlock text = some b →
      extract_json parse text = (parse b).getD (.dct []) ∧
      b.toList.head? = some braceOpen ∧
      b.toList.getLast? = some braceClose ∧
      ∃ u w, text.toList = u ++ b.toList ++ w) ∧
    (text ≠ "" → parse text = none → firstBraceBlock text = none →
      extract_json parse text = .dct []) := by
  refine ⟨?_, ?_, ?_, ?_⟩
  · intro h; simp [extract_json, h]
  · intro h hp; simp [extract_json, h, hp]
  · intro h hp hb
    refine ⟨by simp [extract_json, h, hp, hb], ?_⟩
    exact firstBraceBlock_shape text b hb
  · intro h hp hb; simp [extract_json, h, hp, hb]

/-- Concrete parser for the C6 witness: succeeds only on the two-character
string consisting of an opening and a closing brace. -/
def parseC6 : String → Option PyVal :=
  fun s => if s = String.mk [braceOpen, braceClose] then some (.dct []) else none

/-- Concrete input for the C6 witness. -/
def textC6 : String := String.mk ['x', 'x', braceOpen, braceClose, 'y', 'y']

theorem extract_json_spec_witness : extract_json parseC6 textC6 = PyVal.dct [] := by
  have h := (extract_json_spec parseC6 textC6 (PyVal.dct [])
      (String.mk [braceOpen, braceClose])).2.2.1
    (by decide) rfl (by decide)
  exact h.1.trans rfl

/-! ## generate.py: fallback data and the `StrategyGenerator` methods -/

/-- SWOT result shape of generate.py `generate_swot`: four string lists. -/
structure SwotLists where
  S : List String
  W : List String
  O : List String
  T : List String
deriving DecidableEq

/-- `_fallback_swot` from generate.py. -/
def fallback_swot : SwotLists :=
  { S := ["Clear value proposition", "Growing customer base",
          "Experienced leadership", "Strong partner interest"]
    W := ["Limited brand awareness", "Thin mid-market coverage",
          "Inconsistent messaging"]
    O := ["Upsell existing accounts", "New geography pilots",
          "Alliances with integrators"]
    T := ["Price pressure from low-cost rivals", "Long sales cycles",
          "Security/compliance scrutiny"] }

/-- Ansoff result shape of generate.py: four string lists. -/
structure AnsoffLists where
  market_penetration : List String
  market_development : List String
  product_development : List String
  diversification : List String
deriving DecidableEq

/-- `_fallback_ansoff` from generate.py. -/
def fallback_ansoff : AnsoffLists :=
  { market_penetration := ["Bundle add-ons for existing customers",
                           "Loyalty pricing to reduce churn"]
    market_development := ["Enter 1–2 adjacent regions",
                           "Activate reseller partners"]
    product_development := ["Launch analytics-lite", "Managed service option"]
    diversification := ["Test vertical solution pack",
                        "Hardware+SaaS starter kit"] }

/-- `_fallback_ind` from generate.py: the static industry-analysis dict. -/
def fallback_ind : PyVal :=
  .dct [("industries", .lst
    [ .dct [("industry_vertical_name", .s "Financial Services"),
            ("TAM", .i 20),
            ("Critical_success_category", .dct
              [("Brand", .lst
                 [.s "Trust with regulated clients",
                  .s "Strong financial client references",
                  .s "Reputation for compliance readiness"]),
               ("Economies_of_Scale", .lst
                 [.s "Shared R&D costs across global clients",
                  .s "Specialized financial services teams",
                  .s "Extensive partner ecosystem"]),
               ("Capital", .lst
                 [.s "Upfront compliance investment",
                  .s "Infrastructure resilience",
                  .s "Integration with legacy banking systems"])])],
      .dct [("industry_vertical_name", .s "Manufacturing"),
            ("TAM", .i 10),
            ("Critical_success_category", .dct
              [("Brand", .lst
                 [.s "Trusted vendor for factory automation",
                  .s "Proven reliability in industrial workflows",
                  .s "Reputation for minimizing downtime"]),
               ("Economies_of_Scale", .lst
                 [.s "Global standardization lowers automation cost",
                  .s "Shared R&D across manufacturing clients",
                  .s "Bulk deployments reduce per-unit pricing"]),
               ("Capital", .lst
                 [.s "Integration with robotics demands investment",
                  .s "IoT infrastructure requires upfront funding",
                  .s "Legacy system upgrades need capital"])])]])]

/-- `_DEF_BENCH_CAPS` from generate.py. -/
def DEF_BENCH_CAPS : List String :=
  ["Brand strength", "Distribution/Channels", "Pricing/Packaging",
   "Integrations/Partner ecosystem", "Security/Compliance", "Analytics/AI",
   "Implementation complexity", "Support/Success"]

/-- Benchmark result shape: peer names and dict-like rows. -/
structure BenchOut where
  peers : List String
  table : List (List (String × String))
deriving DecidableEq

/-- The rating scale of `_fallback_benchmark`. -/
def scale3 : List String := ["Low", "Medium", "High"]

/-- `_fallback_benchmark` from generate.py: one row per capability, rated
by position; peers rated by `(i + len(peer)) % 3`. -/
def fallback_benchmark (company : String) (peers caps : List String) : BenchOut :=
  { peers := peers
    table := caps.enum.map (fun ic =>
      ("capability", ic.2) ::
      (company, scale3.getD (min 2 ((ic.1 + 1) % 3)) "") ::
      peers.map (fun p => (p, scale3.getD ((ic.1 + p.length) % 3) ""))) }

/-- An LLM provider: `complete` gives the outcome of the k-th completion
call (`.error` models the call raising a network/provider exception).
Prompt contents do not influence the verified control flow and are
abstracted away. -/
structure Provider where
  complete : Nat → Except String String

/-- `StrategyGenerator` from generate.py (a dataclass holding an optional
provider). -/
structure StrategyGenerator where
  provider : Option Provider

/-- `StrategyGenerator.generate_swot` from generate.py.  With no provider
it returns the static fallback; with a provider it performs a single
completion call (a raising call propagates — there is no try/except in
the source), extracts JSON, coerces the four lists, and falls back when
all four are empty. -/
def StrategyGenerator.generate_swot (g : StrategyGenerator)
    (parse : String → Option PyVal) (company scope product : String)
    (notes geo : Option String) : Except String SwotLists :=
  match g.provider with
  | some p =>
    match p.complete 0 with
    | .error e => .error e
    | .ok text =>
      match extract_json parse text with
      | .dct d =>
        let S := coerce_list (pyLookup "S" d)
        let W := coerce_list (pyLookup "W" d)
        let O := coerce_list (pyLookup "O" d)
        let T := coerce_list (pyLookup "T" d)
        if S.isEmpty && W.isEmpty && O.isEmpty && T.isEmpty then .ok fallback_swot
        else .ok ⟨topn S, topn W, topn O, topn T⟩
      | _ => .error "AttributeError"
  | none => .ok fallback_swot

/-- `StrategyGenerator.generate_ansoff` from generate.py. -/
def StrategyGenerator.generate_ansoff (g : StrategyGenerator)
    (parse : String → Option PyVal) (company scope product : String)
    (notes geo : Option String) : Except String AnsoffLists :=
  match g.provider with
  | some p =>
    match p.complete 0 with
    | .error e => .error e
    | .ok text =>
      match extract_json parse text with
      | .dct d =>
        let mp := coerce_list (pyLookup "market_penetration" d)
        let md := coerce_list (pyLookup "market_development" d)
        let pd := coerce_list (pyLookup "product_development" d)
        let dv := coerce_list (pyLookup "diversification" d)
        if mp.isEmpty && md.isEmpty && pd.isEmpty && dv.isEmpty then
          .ok fallback_ansoff
        else .ok ⟨topn mp, topn md, topn pd, topn dv⟩
      | _ => .error "AttributeError"
  | none => .ok fallback_ansoff

/-- `StrategyGenerator.generate_Industry_Analysis` from generate.py. -/
def StrategyGenerator.generate_Industry_Analysis (g : StrategyGenerator)
    (parse : String → Option PyVal) (company scope product : String)
    (notes geo : Option String) : Except String PyVal :=
  match g.provider with
  | some p =>
    match p.complete 0 with
    | .error e => .error e
    | .ok text => .ok (extract_json parse text)
  | none => .ok fallback_ind

/-- `"Medium"` default used by generate_benchmark row cleaning. -/
def orMedium (t : String) : String := if t = "" then "Medium" else t

/-- `StrategyGenerator.generate_benchmark` from generate.py.  Peers and
caps default via Python `or`; provider rows are cleaned (non-dict rows and
rows without a capability are dropped, missing ratings default to
"Medium") and truncated to the number of capabilities. -/
def StrategyGenerator.generate_benchmark (g : StrategyGenerator)
    (parse : String → Option PyVal) (company scope product : String)
    (peers caps : Option (List String)) : Except String BenchOut :=
  let peersV := pyOrList peers ["PeerA", "PeerB"]
  let capsV := pyOrList caps DEF_BENCH_CAPS
  match g.provider with
  | some p =>
    match p.complete 0 with
    | .error e => .error e
    | .ok text =>
      match extract_json parse text with
      | .dct d =>
        match pyLookup "table" d with
        | some (.lst rows) =>
          if rows.isEmpty then .ok (fallback_benchmark company peersV capsV)
          else
            let cleaned := rows.filterMap (fun row =>
              match row with
              | .dct rd =>
                let cap := pyStrip (pyStr ((pyLookup "capability" rd).getD (.s "")))
                if cap = "" then none
                else some
                  (("capability", cap) ::
                   (company, orMedium (pyStrip (pyStr ((pyLookup company rd).getD (.s ""))))) ::
                   peersV.map (fun pr =>
                     (pr, orMedium (pyStrip (pyStr ((pyLookup pr rd).getD (.s "")))))))
              | _ => none)
            .ok { peers := peersV, table := cleaned.take capsV.length }
        | _ => .ok (fallback_benchmark company peersV capsV)
      | _ => .error "AttributeError"
  | none => .ok (fallback_benchmark company peersV capsV)

/-! ## swot_prompts.py: fallback SWOT, validation, item processing -/

/-- `get_fallback_swot` from swot_prompts.py: the full static SWOT dict. -/
def get_fallback_swot : List (String × PyVal) :=
  [("introduction", .s "Analysis of industrial IoT sensors for manufacturing operations with focus on predictive maintenance capabilities."),
   ("S", .lst
     [.dct [("text", .s "Clear value proposition"), ("impact", .i 8), ("control", .i 9), ("priority", .s "high"), ("solution", .s "Launch case studies showcasing ROI to amplify market position")],
      .dct [("text", .s "Growing customer base"), ("impact", .i 7), ("control", .i 8), ("priority", .s "high"), ("solution", .s "Implement customer success program to maximize retention and expansion")],
      .dct [("text", .s "Experienced leadership"), ("impact", .i 6), ("control", .i 9), ("priority", .s "high"), ("solution", .s "Leverage leadership expertise for strategic partnerships and thought leadership")],
      .dct [("text", .s "Strong partner interest"), ("impact", .i 7), ("control", .i 7), ("priority", .s "high"), ("solution", .s "Formalize partner program with clear incentives and co-marketing")]]),
   ("W", .lst
     [.dct [("text", .s "Limited brand awareness"), ("impact", .i 6), ("control", .i 7), ("priority", .s "medium"), ("solution", .s "Execute targeted digital marketing campaign in key manufacturing verticals")],
      .dct [("text", .s "Thin mid-market coverage"), ("impact", .i 5), ("control", .i 8), ("priority", .s "medium"), ("solution", .s "Develop mid-market specific packaging and partner channel strategy")],
      .dct [("text", .s "Inconsistent messaging"), ("impact", .i 4), ("control", .i 9), ("priority", .s "low")]]),
   ("O", .lst
     [.dct [("text", .s "Upsell existing accounts"), ("impact", .i 8), ("control", .i 7), ("priority", .s "high"), ("solution", .s "Create tiered product bundles for cross-sell into installed base")],
      .dct [("text", .s "New geography pilots"), ("impact", .i 7), ("control", .i 5), ("priority", .s "medium"), ("solution", .s "Partner with local distributors for APAC market entry pilot")],
      .dct [("text", .s "Alliances with integrators"), ("impact", .i 8), ("control", .i 6), ("priority", .s "medium"), ("solution", .s "Establish co-sell agreements with top three system integrators")]]),
   ("T", .lst
     [.dct [("text", .s "Price pressure from low-cost rivals"), ("impact", .i 7), ("control", .i 3), ("priority", .s "medium"), ("solution", .s "Differentiate on total cost of ownership and premium support")],
      .dct [("text", .s "Long sales cycles"), ("impact", .i 6), ("control", .i 4), ("priority", .s "low")],
      .dct [("text", .s "Security/compliance scrutiny"), ("impact", .i 8), ("control", .i 5), ("priority", .s "medium"), ("solution", .s "Obtain SOC 2 certification and publish security whitepaper")]]),
   ("key_takeaway", .s "Focus on leveraging strong partnerships while addressing brand gaps. Prioritize customer retention and explore geographic expansion to offset competitive pressures."),
   ("matrix_introduction", .s "Priority matrix maps impact on success versus ability to influence, revealing strategic action priorities."),
   ("matrix_takeaway", .s "Leverage high-control strengths like experienced leadership immediately. Address brand awareness gaps within your control. Partner strategically for low-control opportunities like new geographies. Monitor and prepare contingency plans for low-control threats."),
   ("roadmap_introduction", .s "Strategic roadmap prioritizes actions across three time horizons to maximize impact and build sustainable competitive advantage."),
   ("roadmap_takeaway", .s "Focus next quarter on high-ROI customer initiatives. This year, expand market presence and strengthen partnerships. Long-term, build infrastructure for scale and compliance readiness."),
   ("roadmap", .dct
     [("short_term", .lst
        [.dct [("item_ref", .s "S1"), ("action", .s "Launch case studies and ROI calculators to strengthen value proposition messaging")],
         .dct [("item_ref", .s "S2"), ("action", .s "Roll out customer success program to drive retention and expansion")]]),
      ("near_term", .lst
        [.dct [("item_ref", .s "O1"), ("action", .s "Develop and pilot upsell bundles with existing enterprise accounts")],
         .dct [("item_ref", .s "W1"), ("action", .s "Execute digital marketing campaign targeting manufacturing decision makers")]]),
      ("long_term", .lst
        [.dct [("item_ref", .s "O2"), ("action", .s "Establish APAC presence through distributor partnerships and local support")],
         .dct [("item_ref", .s "T3"), ("action", .s "Complete SOC 2 certification and build compliance framework")]])])]

/-- `required_keys` of `validate_swot`. -/
def required_keys : List String :=
  ["introduction", "S", "W", "O", "T", "key_takeaway", "matrix_introduction",
   "matrix_takeaway", "roadmap_introduction", "roadmap_takeaway", "roadmap"]

/-- The four list-valued keys checked by `validate_swot`. -/
def list_keys : List String := ["S", "W", "O", "T"]

/-- `validate_swot` from swot_prompts.py: all required keys present and
each of S/W/O/T a non-empty list. -/
def validate_swot (swot : List (String × PyVal)) : Bool :=
  if !(required_keys.all (fun k => (pyLookup k swot).isSome)) then false
  else list_keys.all (fun k =>
    match pyLookup k swot with
    | some (.lst l) => !l.isEmpty
    | _ => false)

/-- One step of `process_items` in swot_prompts.py `generate_swot`:
a dict item keeps text/impact/control/priority/solution with defaults
(no clamping of impact or control); a plain string becomes a record with
impact and control 5; anything else is skipped. -/
def processOne : PyVal → Option PyVal
  | .dct d => some (.dct
      [("text", (pyLookup "text" d).getD (.s "")),
       ("impact", (pyLookup "impact" d).getD (.i 5)),
       ("control", (pyLookup "control" d).getD (.i 5)),
       ("priority", (pyLookup "priority" d).getD (.s "low")),
       ("solution", (pyLookup "solution" d).getD (.s ""))])
  | .s t => some (.dct
      [("text", .s t), ("impact", .i 5), ("control", .i 5)])
  | _ => none

/-- `process_items` from swot_prompts.py `generate_swot`: process each
item and truncate to `max_items`. -/
def processItems (max_items : Nat) (items : List PyVal) : List PyVal :=
  if items.isEmpty then [] else (items.filterMap processOne).take max_items

/-- The value under an S/W/O/T key as an item list (non-list shapes are
treated as empty; in the source a falsy value yields `[]` and non-list
truthy values are degenerate inputs no claim depends on). -/
def asItems : Option PyVal → List PyVal
  | some (.lst l) => l
  | _ => []

/-- Modelled from the spec: `StrategyGenerator.is_available` of the
`generator` module (imported by swot_prompts.py and swot.py but absent
from src/).  Per the spec, generation degrades to the static fallback
exactly when no provider is configured, so availability is the presence
of a provider. -/
def is_available (g : StrategyGenerator) : Bool := g.provider.isSome

/-- The default roadmap dict used by swot_prompts.py `generate_swot`. -/
def emptyRoadmap : PyVal :=
  .dct [("short_term", .lst []), ("near_term", .lst []), ("long_term", .lst [])]

/-- `x if x else default` for a PyVal against a string default. -/
def strOrDefault (v : PyVal) (d : String) : PyVal :=
  if pyTruthy v then v else .s d

/-- `generate_swot` from swot_prompts.py.  Returns the produced SWOT dict
together with the number of provider completion calls made (0 without a
provider, always exactly 1 with one — a single attempt, no retries).
The whole generation is wrapped in try/except in the source, so a raising
completion call is caught and the static fallback returned; the function
is total (never propagates).  `generator.generate_json` (absent from
src/) is modelled from the spec as one completion call followed by
`_extract_json`. -/
def swot_prompts_generate_swot (parse : String → Option PyVal)
    (g : StrategyGenerator) (company industry product product_feature : String)
    (notes geo : Option String) (max_items : Nat := 8) :
    List (String × PyVal) × Nat :=
  if !(is_available g) then (get_fallback_swot, 0)
  else
    match g.provider with
    | none => (get_fallback_swot, 0)
    | some p =>
      match p.complete 0 with
      | .error _ => (get_fallback_swot, 1)
      | .ok text =>
        match extract_json parse text with
        | .dct d =>
          let introduction := (pyLookup "introduction" d).getD (.s "")
          let S := processItems max_items (asItems (pyLookup "S" d))
          let W := processItems max_items (asItems (pyLookup "W" d))
          let O := processItems max_items (asItems (pyLookup "O" d))
          let T := processItems max_items (asItems (pyLookup "T" d))
          let key_takeaway := (pyLookup "key_takeaway" d).getD (.s "")
          let matrix_introduction := (pyLookup "matrix_introduction" d).getD (.s "")
          let matrix_takeaway := (pyLookup "matrix_takeaway" d).getD (.s "")
          let roadmap_introduction := (pyLookup "roadmap_introduction" d).getD (.s "")
          let roadmap_takeaway := (pyLookup "roadmap_takeaway" d).getD (.s "")
          let roadmap := (pyLookup "roadmap" d).getD emptyRoadmap
          if S.isEmpty && W.isEmpty && O.isEmpty && T.isEmpty then
            (get_fallback_swot, 1)
          else
            ([("introduction", strOrDefault introduction
                ("Strategic analysis for " ++ company ++ apostrophe ++ "s " ++
                 product ++ " in " ++ industry ++ ".")),
              ("S", .lst S), ("W", .lst W), ("O", .lst O), ("T", .lst T),
              ("key_takeaway", strOrDefault key_takeaway
                "Focus on building strengths while addressing weaknesses to capitalize on opportunities."),
              ("matrix_introduction", strOrDefault matrix_introduction
                "Priority matrix based on impact and control to guide strategic resource allocation."),
              ("matrix_takeaway", strOrDefault matrix_takeaway
                "Prioritize high-impact, high-control items for immediate action while developing strategies for lower-control factors."),
              ("roadmap_introduction", strOrDefault roadmap_introduction
                "Strategic roadmap outlines phased approach to address priorities across time horizons."),
              ("roadmap_takeaway", strOrDefault roadmap_takeaway
                "Execute quick wins now, build capabilities this year, and establish strategic positioning for long-term success."),
              ("roadmap", if pyTruthy roadmap then roadmap else emptyRoadmap)], 1)
        | _ => (get_fallback_swot, 1)

/-! ## Claims C4, C5, C7 -/

/-- C4: every framework-generation call with the provider unset returns
the fixed fallback structure of its framework (generate.py methods and
the swot_prompts generation path), and the fallback SWOT satisfies the
declared schema: `validate_swot get_fallback_swot = true`. -/
theorem fallback_generation_valid (parse : String → Option PyVal)
    (company scope product industry product_feature : String)
    (notes geo : Option String) (peers caps : Option (List String)) :
    StrategyGenerator.generate_swot ⟨none⟩ parse company scope product notes geo
      = .ok fallback_swot ∧
    StrategyGenerator.generate_ansoff ⟨none⟩ parse company scope product notes geo
      = .ok fallback_ansoff ∧
    StrategyGenerator.generate_Industry_Analysis ⟨none⟩ parse company scope product notes geo
      = .ok fallback_ind ∧
    StrategyGenerator.generate_benchmark ⟨none⟩ parse company scope product peers caps
      = .ok (fallback_benchmark company
              (pyOrList peers ["PeerA", "PeerB"]) (pyOrList caps DEF_BENCH_CAPS)) ∧
    swot_prompts_generate_swot parse ⟨none⟩ company industry product product_feature notes geo 8
      = (get_fallback_swot, 0) ∧
    validate_swot get_fallback_swot = true := by
  refine ⟨rfl, rfl, rfl, rfl, rfl, by decide⟩

/-- Parser used only by the C5 counterexample (always fails). -/
def parseC5 : String → Option PyVal := fun _ => none

/-- C5 counterexample: with a provider whose completion call raises,
`StrategyGenerator.generate_swot` in generate.py does NOT catch the
exception and does not return the fallback — the exception propagates to
the caller (there is no try/except around the framework methods of
generate.py; only `generate_recommendations` catches). -/
theorem generate_swot_propagates_exception_cex :
    StrategyGenerator.generate_swot
      ⟨some ⟨fun _ => .error "NetworkError"⟩⟩ parseC5
      "ACME Robotics" "builds and sells robots" "Industrial IoT Sensors"
      none none
      = .error "NetworkError" := rfl

/-- C5 (amended): in `swot_prompts.generate_swot` — the generation path
used by the app — a raising provider completion call is caught and the
static fallback `get_fallback_swot` is returned after exactly one
completion attempt (no retries), identical to the value of the
no-provider case; the call never propagates the exception (the model is
a total function).  The generate.py framework methods, by contrast,
propagate provider exceptions (see the counterexample). -/
theorem swot_prompts_generate_swot_catches (parse : String → Option PyVal)
    (company industry product product_feature : String)
    (notes geo : Option String) (p : Provider) (e : String)
    (h : p.complete 0 = .error e) :
    swot_prompts_generate_swot parse ⟨some p⟩ company industry product
        product_feature notes geo 8 = (get_fallback_swot, 1) ∧
    swot_prompts_generate_swot parse ⟨none⟩ company industry product
        product_feature notes geo 8 = (get_fallback_swot, 0) := by
  constructor
  · simp [swot_prompts_generate_swot, is_available, h]
  · rfl

theorem swot_prompts_generate_swot_catches_witness :
    swot_prompts_generate_swot parseC5 ⟨some ⟨fun _ => .error "boom"⟩⟩
        "ACME" "Manufacturing" "Sensors" "Predictive maintenance"
        none none 8 = (get_fallback_swot, 1) :=
  (swot_prompts_generate_swot_catches parseC5 "ACME" "Manufacturing"
    "Sensors" "Predictive maintenance" none none ⟨fun _ => .error "boom"⟩
    "boom" rfl).1

/-- Does a processed SWOT item keep its impact and control (when present
as integers) inside the range [1,10]?  This is the property asserted by
the claim. -/
def impactControlInRange (v : PyVal) : Bool :=
  (match v with
   | .dct d =>
     (match pyLookup "impact" d with
      | some (.i n) => decide (1 ≤ n ∧ n ≤ 10)
      | _ => true) &&
     (match pyLookup "control" d with
      | some (.i n) => decide (1 ≤ n ∧ n ≤ 10)
      | _ => true)
   | _ => true)

/-- C7 counterexample: `process_items` performs NO clamping — an input
record with impact 99 and control 0 is passed through unchanged, so the
produced item violates the claimed [1,10] range. -/
theorem process_items_no_clamp_cex :
    (processItems 8
      [.dct [("text", .s "x"), ("impact", .i 99), ("control", .i 0)]]).all
        impactControlInRange = false := by decide

/-- C7 (amended): each of the four produced lists is truncated to at most
`max_items` (default 8) items, and impact/control are NOT clamped: a dict
item keeps whatever impact/control values it carries, defaulting to 5
only when the field is absent (and to 5 for legacy plain-string items). -/
theorem process_items_bounded_passthrough (max_items : Nat)
    (items : List PyVal) (d : List (String × PyVal)) (t : String) :
    (processItems max_items items).length ≤ max_items ∧
    processItems 8 [.dct d] =
      [.dct [("text", (pyLookup "text" d).getD (.s "")),
             ("impact", (pyLookup "impact" d).getD (.i 5)),
             ("control", (pyLookup "control" d).getD (.i 5)),
             ("priority", (pyLookup "priority" d).getD (.s "low")),
             ("solution", (pyLookup "solution" d).getD (.s ""))]] ∧
    processItems 8 [.s t] =
      [.dct [("text", .s t), ("impact", .i 5), ("control", .i 5)]] := by
  refine ⟨?_, rfl, rfl⟩
  unfold processItems
  split
  · simp
  · calc ((items.filterMap processOne).take max_items).length
        = min max_items (items.filterMap processOne).length := by
          simp [List.length_take]
      _ ≤ max_items := Nat.min_le_left _ _

/-! ## export_ppt.py: recommendations grid (slide_recommendations)

All lengths are in half-EMU (hemu): `Inches x` of python-pptx is
`int(x * 914400)` EMU, i.e. `2 * int(x * 914400)` hemu.  The division
`grid_w / 2` of the source is then exact in hemu. -/

/-- Slide width `W = Inches(13.333)` = 12191695 EMU, in hemu. -/
def hemuW : Int := 24383390

/-- `MARGIN = Inches(0.8)` = 731520 EMU, in hemu. -/
def hemuMARGIN : Int := 1463040

/-- `grid_left = MARGIN` in hemu. -/
def hemuGridLeft : Int := hemuMARGIN

/-- `grid_top = Inches(2)` = 1828800 EMU, in hemu. -/
def hemuGridTop : Int := 3657600

/-- `grid_w = W - 2*MARGIN` in hemu. -/
def hemuGridW : Int := hemuW - 2 * hemuMARGIN

/-- `grid_h = Inches(4.6)` = 4206240 EMU, in hemu. -/
def hemuGridH : Int := 8412480

/-- `Inches(0.12)` = 109728 EMU, in hemu. -/
def hemuOff12 : Int := 219456

/-- `Inches(0.24)` = 219456 EMU, in hemu. -/
def hemuOff24 : Int := 438912

/-- Text-box height `Inches(0.5)` = 457200 EMU, in hemu. -/
def hemuBoxH : Int := 914400

/-- The literal tolerance `1` EMU of the overlap check, in hemu. -/
def hemuTol : Int := 2

/-- A recommendation record: `{title, impact, effort}` with optional
fields (dict lookups default impact and effort to 3). -/
structure RecItem where
  title : Option String
  impact : Option Int
  effort : Option Int
deriving DecidableEq

/-- `int(rec.get("impact", 3))`. -/
def recImpact (r : RecItem) : Int := r.impact.getD 3

/-- `int(rec.get("effort", 3))`. -/
def recEffort (r : RecItem) : Int := r.effort.getD 3

/-- Quadrant selection of slide_recommendations: 0 = top-left (Quick
Wins), 1 = top-right (Strategic Bets), 2 = bottom-left (Fill-ins),
3 = bottom-right (Long Shots). -/
def quadOf (impact effort : Int) : Fin 4 :=
  if 4 ≤ impact ∧ effort ≤ 3 then 0
  else if 4 ≤ impact ∧ 3 < effort then 1
  else if impact < 4 ∧ effort ≤ 3 then 2
  else 3

/-- Top-left corner (l, t) of each quadrant rect returned by `_grid`
(q[0] is top-left, q[1] top-right, q[2] bottom-left, q[3] bottom-right);
each quadrant is `grid_w/2` by `grid_h/2`. -/
def quadAnchor (q : Fin 4) : Int × Int :=
  if q = 0 then (hemuGridLeft, hemuGridTop)
  else if q = 1 then (hemuGridLeft + hemuGridW / 2, hemuGridTop)
  else if q = 2 then (hemuGridLeft, hemuGridTop + hemuGridH / 2)
  else (hemuGridLeft + hemuGridW / 2, hemuGridTop + hemuGridH / 2)

/-- A shape on the slide, as read back from the stored XML
(integral EMU, hence even hemu). -/
structure Shape where
  left : Int
  top : Int
deriving DecidableEq

/-- The stored coordinate of an added textbox: python-pptx writes `%d` of
the (possibly fractional) coordinate, truncating toward zero — in hemu,
rounding down to the even value below. -/
def storeCoord (x : Int) : Int := 2 * (x / 2)

/-- The overlap-avoidance loop of slide_recommendations: for each shape
already on the slide, if the left of the item and the CURRENT top both lie
within the tolerance of the corner of that shape, the top is moved to
`shape.top + height` (one 0.5-inch row below the shape). -/
def placeTop (shapes : List Shape) (left top : Int) : Int :=
  match shapes with
  | [] => top
  | sh :: rest =>
    if |left - sh.left| ≤ hemuTol ∧ |top - sh.top| ≤ hemuTol then
      placeTop rest left (sh.top + hemuBoxH)
    else
      placeTop rest left top

/-- A placed recommendation textbox: its selected quadrant and its stored
geometry. -/
structure PlacedBox where
  quad : Fin 4
  left : Int
  top : Int
  width : Int
  height : Int
deriving DecidableEq

/-- The shape (as later read back) of a placed box. -/
def PlacedBox.toShape (b : PlacedBox) : Shape := ⟨b.left, b.top⟩

/-- Placing one recommendation: select the quadrant by impact/effort
thresholds, compute the anchor `(l + 0.12in, t + 0.12in)`, run the
overlap loop against the shapes already on the slide, and add the
textbox. -/
def placeBox (shapes : List Shape) (r : RecItem) : PlacedBox :=
  let q := quadOf (recImpact r) (recEffort r)
  let a := quadAnchor q
  let left := a.1 + hemuOff12
  let top0 := a.2 + hemuOff12
  let top := placeTop shapes left top0
  { quad := q, left := storeCoord left, top := storeCoord top,
    width := hemuGridW / 2 - hemuOff24, height := hemuBoxH }

/-- The placement loop over the recommendation records: each placed box
becomes a shape seen by later items. -/
def placeRecs (shapes : List Shape) : List RecItem → List PlacedBox
  | [] => []
  | r :: rs =>
    let b := placeBox shapes r
    b :: placeRecs (shapes ++ [b.toShape]) rs

/-- `slide_recommendations` placement: at most the first 10 records are
placed (`(recs or [])[:10]`), starting from the shapes already on the
slide (heading, grid, axis labels). -/
def slideRecommendationsPlace (initial : List Shape) (recs : List RecItem) :
    List PlacedBox :=
  placeRecs initial (recs.take 10)

/-! ## export_ppt.py: appendix chunking (slide_appendix_json) -/

/-- `[text[i:i+2000] for i in range(0, len(text), 2000)]`. -/
def splitChunks (s : List Char) : List (List Char) :=
  if h : s = [] then [] else s.take 2000 :: splitChunks (s.drop 2000)
termination_by s.length
decreasing_by
  simp only [List.length_drop]
  have : 0 < s.length := List.length_pos.mpr h
  omega

/-- `chunks or [text]`: an empty comprehension (empty text) still yields
one chunk. -/
def slideChunks (s : List Char) : List (List Char) :=
  let cs := splitChunks s
  if cs.isEmpty then [s] else cs

/-- One appendix slide: its title and the chunk of text it shows. -/
structure AppendixSlide where
  title : String
  body : List Char
deriving DecidableEq

/-- The `" (cont.)"` suffix appended to titles after the first slide. -/
def contSuffix : String := " (cont.)"

/-- `slide_appendix_json` from export_ppt.py: one slide per 2000-character
chunk; the first slide carries the given title, every later slide the
title with the `" (cont.)"` suffix. -/
def appendixSlides (title : String) (text : List Char) : List AppendixSlide :=
  (slideChunks text).enum.map (fun p =>
    { title := if p.1 = 0 then title else title ++ contSuffix, body := p.2 })

/-! ## export_ppt.py: deck builder (build_ppt_from_state) -/

/-- The kind of each slide added by the builder, in order. -/
inductive DeckKind where
  | title
  | agenda
  | snapshot
  | industry
  | swot
  | ansoff
  | benchmark
  | recommendations
  | appendix
deriving DecidableEq

/-- The factors of one `Critical_success_category` entry: a list of
factors, or a tolerated non-list scalar. -/
inductive CSFactors where
  | lst (factors : List PyVal)
  | single (v : PyVal)

/-- One industry item of the industry-analysis structure. -/
structure IndItem where
  industry_vertical_name : String
  TAM : PyVal
  cs : List (String × CSFactors)

/-- The `results["ind"]` value: a bare list of industry items or a dict
`\x7b"industries": [...]\x7d` (an empty dict is modelled as a missing
value: both are falsy for the `if Ind:` check in the source). -/
inductive IndVal where
  | lst (industries : List IndItem)
  | dct (industries : List IndItem)

/-- One long-format row produced by `ind_to_long_records`. -/
structure IndRecord where
  Industry : String
  TAM : PyVal
  Category : String
  Rank : Nat
  Factor : String

/-- `ind_to_long_records` from export_ppt.py: flatten the per-industry
category→factors mapping into (industry, TAM, category, rank, factor)
rows; a non-list factors value becomes a single rank-1 row. -/
def ind_to_long_records (v : IndVal) : List IndRecord :=
  let industries := match v with | .lst l => l | .dct l => l
  industries.flatMap (fun item =>
    item.cs.flatMap (fun cf =>
      match cf.2 with
      | .lst factors =>
        factors.enum.map (fun rf =>
          { Industry := item.industry_vertical_name, TAM := item.TAM,
            Category := cf.1, Rank := rf.1 + 1, Factor := pyStr rf.2 })
      | .single f =>
        [{ Industry := item.industry_vertical_name, TAM := item.TAM,
           Category := cf.1, Rank := 1, Factor := pyStr f }]))

/-- Truthiness of `results.get("ind") or \x7b\x7d` for `if Ind:`. -/
def indTruthy : Option IndVal → Bool
  | none => false
  | some (.lst l) => !l.isEmpty
  | some (.dct _) => true

/-- The `"SWOT"` / `"Ansoff"` substructures as the export code sees
them: dicts from key to a list of bullet strings. -/
def StrAssoc : Type := List (String × List String)

/-- The `"Benchmark"` substructure: peers and dict-like table rows. -/
structure BenchDict where
  peers : List String
  table : List (List (String × String))
deriving DecidableEq

/-- The session state consumed by `build_ppt_from_state`: `none` models a
missing key or `None` value. -/
structure PResults where
  ind : Option IndVal
  SWOT : Option StrAssoc
  Ansoff : Option StrAssoc
  Benchmark : Option BenchDict

/-- The state dict passed to `build_ppt_from_state`. -/
structure PState where
  company : Option String
  product : Option String
  frameworks : List String
  results : PResults
  recs : List RecItem

/-- `row.get(k, "")` on a string-valued row dict. -/
def lookupS (k : String) (d : List (String × String)) : String :=
  (((d.find? (fun kv => kv.1 == k)).map (fun kv => kv.2)).getD "")

/-- The rendered benchmark table slide. -/
structure BenchSlide where
  headers : List String
  rows : List (List String)
deriving DecidableEq

/-- `slide_benchmark` from export_ppt.py: returns `none` (no slide) when
the table is empty; otherwise the header row is capability + company +
peers in that order, and each body row reads those keys from the row
dict. -/
def slide_benchmark (company : String) (bench : BenchDict) :
    Option BenchSlide :=
  if bench.table.isEmpty then none
  else some
    { headers := "Capability" :: company :: bench.peers
      rows := bench.table.map (fun row =>
        lookupS "capability" row :: lookupS company row ::
          bench.peers.map (fun p => lookupS p row)) }

/-- Truthiness of a possibly-missing assoc dict. -/
def assocTruthy : Option StrAssoc → Bool
  | none => false
  | some l => !l.isEmpty

/-- `(results.get("Benchmark") or \x7b\x7d).get("table") or []`. -/
def benchTableOf : Option BenchDict → List (List (String × String))
  | none => []
  | some b => b.table

/-- `(state.get("company") or "Company").strip()`. -/
def effCompany (state : PState) : String := pyStrip (pyOrS state.company "Company")

/-- `(state.get("product") or "Product").strip()`. -/
def effProduct (state : PState) : String := pyStrip (pyOrS state.product "Product")

/-- The observable output of `build_ppt_from_state`: the ordered slide
kinds, the title-slide texts and the suggested filename. -/
structure DeckOutput where
  kinds : List DeckKind
  titleText : String
  subtitleText : String
  fname : String

/-- The appendix title used by the builder. -/
def appendixTitle : String := "Appendix — Raw Analysis JSON"

/-- The industry section: a slide is added only when `ind` is truthy AND
`ind_to_long_records` is non-empty (`slide_ind` returns without adding a
slide on empty records). -/
def indKinds : Option IndVal → List DeckKind
  | some iv =>
    if indTruthy (some iv) then
      if (ind_to_long_records iv).isEmpty then [] else [DeckKind.industry]
    else []
  | none => []

/-- A section that contributes one slide of kind `k` exactly when its
backing data is truthy. -/
def flagKinds (present : Bool) (k : DeckKind) : List DeckKind :=
  if present then [k] else []

/-- `build_ppt_from_state` from export_ppt.py.  `dumps` models
`json.dumps` of the selected state keys (frameworks / results / recs,
indented); `dateStr` and `ymd` model the two `datetime.now()` renderings.
The builder is a single linear pass: title, agenda, executive snapshot,
then each optional section only when its backing data is truthy, then the
appendix slides.  The model is total: no exception is raised on missing
sections. -/
def build_ppt_from_state (dumps : PState → List Char) (dateStr ymd : String)
    (state : PState) : DeckOutput :=
  let company := effCompany state
  let product := effProduct state
  let results := state.results
  let recs := state.recs
  { kinds := [DeckKind.title, DeckKind.agenda, DeckKind.snapshot] ++
      indKinds results.ind ++
      flagKinds (assocTruthy results.SWOT) DeckKind.swot ++
      flagKinds (assocTruthy results.Ansoff) DeckKind.ansoff ++
      flagKinds (!(benchTableOf results.Benchmark).isEmpty) DeckKind.benchmark ++
      flagKinds (!recs.isEmpty) DeckKind.recommendations ++
      (appendixSlides appendixTitle (dumps state)).map (fun _ => DeckKind.appendix)
    titleText := product ++ " × " ++ company
    subtitleText := "Strategy Snapshot — " ++ dateStr
    fname := company.replace " " "_" ++ "_" ++ product.replace " " "_" ++ "_" ++
      ymd ++ "_strategy.pptx" }

/-! ## Claims C1, C2 (recommendations grid) -/

lemma placeRecs_length (rs : List RecItem) :
    ∀ shapes, (placeRecs shapes rs).length = rs.length := by
  induction rs with
  | nil => intro shapes; rfl
  | cons r rs ih =>
    intro shapes
    simp only [placeRecs, List.length_cons]
    rw [ih]

lemma placeRecs_get_quad (rs : List RecItem) :
    ∀ shapes k, ((placeRecs shapes rs).get? k).map PlacedBox.quad =
      (rs.get? k).map (fun r => quadOf (recImpact r) (recEffort r)) := by
  induction rs with
  | nil => intro shapes k; rfl
  | cons r rs ih =>
    intro shapes k
    cases k with
    | zero => rfl
    | succ k =>
      simp only [placeRecs, List.get?_cons_succ]
      exact ih _ k

lemma quadOf_cases (i e : Int) :
    (quadOf i e = 0 ↔ 4 ≤ i ∧ e ≤ 3) ∧
    (quadOf i e = 1 ↔ 4 ≤ i ∧ 3 < e) ∧
    (quadOf i e = 2 ↔ i < 4 ∧ e ≤ 3) ∧
    (quadOf i e = 3 ↔ i < 4 ∧ 3 < e) := by
  unfold quadOf
  split_ifs with h1 h2 h3 <;>
    refine ⟨⟨fun hq => ?_, fun hc => ?_⟩, ⟨fun hq => ?_, fun hc => ?_⟩,
            ⟨fun hq => ?_, fun hc => ?_⟩, ⟨fun hq => ?_, fun hc => ?_⟩⟩ <;>
    first
      | rfl
      | omega
      | exact absurd hq (by decide)
      | exact ((by omega : False)).elim

/-- C1: `slide_recommendations` places at most the first 10 recommendation
records, and the k-th placed text box is assigned to the top-left Quick
Wins quadrant iff impact ≥ 4 and effort ≤ 3, the top-right Strategic Bets
quadrant iff impact ≥ 4 and effort > 3, the bottom-left Fill-ins quadrant
iff impact < 4 and effort ≤ 3, and the bottom-right Long Shots quadrant
otherwise; in particular impact=5, effort=2 selects Quick Wins and
impact=3, effort=4 selects Long Shots. -/
theorem slide_recommendations_quadrant_placement
    (initial : List Shape) (recs : List RecItem) (k : Nat) (r : RecItem)
    (box : PlacedBox) (hk : recs.get? k = some r) (hk10 : k < 10)
    (hbox : (slideRecommendationsPlace initial recs).get? k = some box) :
    (slideRecommendationsPlace initial recs).length = min recs.length 10 ∧
    box.quad = quadOf (recImpact r) (recEffort r) ∧
    (box.quad = 0 ↔ 4 ≤ recImpact r ∧ recEffort r ≤ 3) ∧
    (box.quad = 1 ↔ 4 ≤ recImpact r ∧ 3 < recEffort r) ∧
    (box.quad = 2 ↔ recImpact r < 4 ∧ recEffort r ≤ 3) ∧
    (box.quad = 3 ↔ recImpact r < 4 ∧ 3 < recEffort r) ∧
    quadOf 5 2 = 0 ∧ quadOf 3 4 = 3 := by
  have hlen : (slideRecommendationsPlace initial recs).length = min recs.length 10 := by
    unfold slideRecommendationsPlace
    rw [placeRecs_length, List.length_take]
    omega
  have hquad : box.quad = quadOf (recImpact r) (recEffort r) := by
    have h := placeRecs_get_quad (recs.take 10) initial k
    unfold slideRecommendationsPlace at hbox
    rw [hbox, List.get?_take hk10, hk] at h
    simpa using h
  have hc := quadOf_cases (recImpact r) (recEffort r)
  exact ⟨hlen, hquad, by rw [hquad]; exact hc.1, by rw [hquad]; exact hc.2.1,
    by rw [hquad]; exact hc.2.2.1, by rw [hquad]; exact hc.2.2.2,
    by decide, by decide⟩

/-- Concrete records for the C1 witness. -/
def recW0 : RecItem := ⟨some "A", some 5, some 2⟩

/-- Concrete records for the C1 witness. -/
def recsW : List RecItem := [recW0, ⟨some "B", some 3, some 4⟩]

/-- The first box placed by the C1 witness run. -/
def boxW0 : PlacedBox := ⟨0, 1682496, 3877056, 10289743, 914400⟩

theorem slide_recommendations_quadrant_placement_witness :
    (slideRecommendationsPlace [] recsW).length = min recsW.length 10 ∧
    boxW0.quad = quadOf (recImpact recW0) (recEffort recW0) ∧
    (boxW0.quad = 0 ↔ 4 ≤ recImpact recW0 ∧ recEffort recW0 ≤ 3) ∧
    (boxW0.quad = 1 ↔ 4 ≤ recImpact recW0 ∧ 3 < recEffort recW0) ∧
    (boxW0.quad = 2 ↔ recImpact recW0 < 4 ∧ recEffort recW0 ≤ 3) ∧
    (boxW0.quad = 3 ↔ recImpact recW0 < 4 ∧ 3 < recEffort recW0) ∧
    quadOf 5 2 = 0 ∧ quadOf 3 4 = 3 :=
  slide_recommendations_quadrant_placement [] recsW 0 recW0 boxW0
    (by decide) (by decide) (by decide)

lemma placeTop_no_collision (shapes : List Shape) (l : Int) :
    ∀ t, (∀ s ∈ shapes, ¬(|l - s.left| ≤ hemuTol ∧ |t - s.top| ≤ hemuTol)) →
      placeTop shapes l t = t := by
  induction shapes with
  | nil => intro t _; rfl
  | cons sh rest ih =>
    intro t h
    have hsh := h sh (by simp)
    simp only [placeTop]
    rw [if_neg hsh]
    exact ih t (fun s hs => h s (by simp [hs]))

lemma placeTop_disj (shapes : List Shape) (l : Int) :
    ∀ t, placeTop shapes l t = t ∨
      ∃ s ∈ shapes, |l - s.left| ≤ hemuTol ∧
        placeTop shapes l t = s.top + hemuBoxH ∧
        t + hemuBoxH - hemuTol ≤ placeTop shapes l t := by
  induction shapes with
  | nil => intro t; left; rfl
  | cons sh rest ih =>
    intro t
    have hH : hemuTol ≤ hemuBoxH := by decide
    by_cases hc : |l - sh.left| ≤ hemuTol ∧ |t - sh.top| ≤ hemuTol
    · have heq : placeTop (sh :: rest) l t = placeTop rest l (sh.top + hemuBoxH) := by
        simp only [placeTop]
        rw [if_pos hc]
      have h2 := abs_le.mp hc.2
      right
      rcases ih (sh.top + hemuBoxH) with h0 | ⟨s, hs, hls, heq2, hge⟩
      · exact ⟨sh, by simp, hc.1, by rw [heq, h0], by rw [heq, h0]; omega⟩
      · exact ⟨s, by simp [hs], hls, by rw [heq]; exact heq2,
          by rw [heq]; omega⟩
    · have heq : placeTop (sh :: rest) l t = placeTop rest l t := by
        simp only [placeTop]
        rw [if_neg hc]
      rcases ih t with h0 | ⟨s, hs, hls, heq2, hge⟩
      · left; rw [heq, h0]
      · right
        exact ⟨s, by simp [hs], hls, by rw [heq]; exact heq2,
          by rw [heq]; exact hge⟩

lemma placeTop_pos (shapes : List Shape) (l : Int) :
    ∀ t, (∃ s ∈ shapes, |l - s.left| ≤ hemuTol ∧ |t - s.top| ≤ hemuTol) →
      ∃ s ∈ shapes, |l - s.left| ≤ hemuTol ∧
        placeTop shapes l t = s.top + hemuBoxH ∧
        t + hemuBoxH - hemuTol ≤ placeTop shapes l t := by
  induction shapes with
  | nil =>
    intro t h
    simp at h
  | cons sh rest ih =>
    intro t h
    have hH : hemuTol ≤ hemuBoxH := by decide
    by_cases hc : |l - sh.left| ≤ hemuTol ∧ |t - sh.top| ≤ hemuTol
    · have heq : placeTop (sh :: rest) l t = placeTop rest l (sh.top + hemuBoxH) := by
        simp only [placeTop]
        rw [if_pos hc]
      have h2 := abs_le.mp hc.2
      rcases placeTop_disj rest l (sh.top + hemuBoxH) with h0 | ⟨s, hs, hls, heq2, hge⟩
      · exact ⟨sh, by simp, hc.1, by rw [heq, h0], by rw [heq, h0]; omega⟩
      · exact ⟨s, by simp [hs], hls, by rw [heq]; exact heq2,
          by rw [heq]; omega⟩
    · obtain ⟨s, hs, hls, hts⟩ := h
      have hs' : s ∈ rest := by
        rcases List.mem_cons.mp hs with h1 | h1
        · exact absurd ⟨by rw [← h1]; exact hls, by rw [← h1]; exact hts⟩ hc
        · exact h1
      have heq : placeTop (sh :: rest) l t = placeTop rest l t := by
        simp only [placeTop]
        rw [if_neg hc]
      obtain ⟨s2, hs2, hls2, heq2, hge2⟩ := ih t ⟨s, hs', hls, hts⟩
      exact ⟨s2, by simp [hs2], hls2, by rw [heq]; exact heq2,
        by rw [heq]; exact hge2⟩

/-- C2: in `slide_recommendations`, a new item whose computed top-left
corner lies within the tolerance of the corner of an already-placed shape in
the same column has its top moved below that shape — to `shape.top` plus
one 0.5-inch row-height (hence at least one row-height below its own
anchor, up to the tolerance); an item whose computed corner is not within
tolerance of any already-placed shape keeps its quadrant anchor
position. -/
theorem slide_recommendations_overlap_shift (shapes : List Shape)
    (left top : Int) :
    ((∀ s ∈ shapes, ¬(|left - s.left| ≤ hemuTol ∧ |top - s.top| ≤ hemuTol)) →
      placeTop shapes left top = top) ∧
    ((∃ s ∈ shapes, |left - s.left| ≤ hemuTol ∧ |top - s.top| ≤ hemuTol) →
      ∃ s ∈ shapes, |left - s.left| ≤ hemuTol ∧
        placeTop shapes left top = s.top + hemuBoxH ∧
        top + hemuBoxH - hemuTol ≤ placeTop shapes left top) :=
  ⟨placeTop_no_collision shapes left top, placeTop_pos shapes left top⟩

theorem slide_recommendations_overlap_shift_witness :
    placeTop [⟨100, 200⟩] 100 201 = 200 + hemuBoxH ∧
    placeTop [⟨500000, 200⟩] 100 201 = 201 := by
  constructor
  · have h := (slide_recommendations_overlap_shift [⟨100, 200⟩] 100 201).2
      ⟨⟨100, 200⟩, by simp, by decide, by decide⟩
    obtain ⟨s, hs, hl, heq, hge⟩ := h
    have hse : s = ⟨100, 200⟩ := by simpa using hs
    rw [hse] at heq
    exact heq
  · refine (slide_recommendations_overlap_shift [⟨500000, 200⟩] 100 201).1 ?_
    intro s hs
    have hse : s = ⟨500000, 200⟩ := by simpa using hs
    rw [hse]
    decide

/-! ## Claim C3 (appendix chunking) -/

/-- C3: `slide_appendix_json` splits the text into consecutive 2000-
character chunks, one slide per chunk, titling the first slide with the
given title and every later slide with the `" (cont.)"` suffix; a text of
exactly 4500 characters yields exactly 3 slides whose bodies are the
three consecutive chunks and whose concatenation is the whole text. -/
theorem slide_appendix_json_chunking (title : String) (text : List Char)
    (h : text.length = 4500) :
    appendixSlides title text =
      [⟨title, text.take 2000⟩,
       ⟨title ++ contSuffix, (text.drop 2000).take 2000⟩,
       ⟨title ++ contSuffix, (text.drop 4000).take 2000⟩] ∧
    ((appendixSlides title text).map AppendixSlide.body).join = text := by
  have h1 : text ≠ [] := by
    intro hn; rw [hn] at h; simp at h
  have h2 : text.drop 2000 ≠ [] := by
    intro hn
    have := congrArg List.length hn
    simp [List.length_drop, h] at this
  have h3 : text.drop 4000 ≠ [] := by
    intro hn
    have := congrArg List.length hn
    simp [List.length_drop, h] at this
  have hdd1 : (text.drop 2000).drop 2000 = text.drop 4000 := by
    rw [List.drop_drop]
  have hdd2 : (text.drop 4000).drop 2000 = [] := by
    apply List.eq_nil_of_length_eq_zero
    simp [List.length_drop, h]
  have e3 : splitChunks (text.drop 4000) = [(text.drop 4000).take 2000] := by
    rw [splitChunks]
    rw [dif_neg h3, hdd2]
    rw [splitChunks]
    simp
  have e2 : splitChunks (text.drop 2000) =
      [(text.drop 2000).take 2000, (text.drop 4000).take 2000] := by
    rw [splitChunks]
    rw [dif_neg h2, hdd1, e3]
  have e1 : splitChunks text =
      [text.take 2000, (text.drop 2000).take 2000, (text.drop 4000).take 2000] := by
    rw [splitChunks]
    rw [dif_neg h1, e2]
  have hsc : slideChunks text =
      [text.take 2000, (text.drop 2000).take 2000, (text.drop 4000).take 2000] := by
    unfold slideChunks
    rw [e1]
    rfl
  have hsl : appendixSlides title text =
      [⟨title, text.take 2000⟩,
       ⟨title ++ contSuffix, (text.drop 2000).take 2000⟩,
       ⟨title ++ contSuffix, (text.drop 4000).take 2000⟩] := by
    unfold appendixSlides
    rw [hsc]
    rfl
  refine ⟨hsl, ?_⟩
  have hlen3 : (text.drop 4000).length ≤ 2000 := by
    simp [List.length_drop, h]
  have htk : (text.drop 4000).take 2000 = text.drop 4000 :=
    List.take_of_length_le hlen3
  calc ((appendixSlides title text).map AppendixSlide.body).join
      = text.take 2000 ++ ((text.drop 2000).take 2000 ++
          ((text.drop 4000).take 2000 ++ [])) := by rw [hsl]; rfl
    _ = text := by
        rw [htk, List.append_nil, ← hdd1, List.take_append_drop,
          List.take_append_drop]

theorem slide_appendix_json_chunking_witness :
    appendixSlides "Appendix" (List.replicate 4500 'a') =
      [⟨"Appendix", (List.replicate 4500 'a').take 2000⟩,
       ⟨"Appendix" ++ contSuffix, ((List.replicate 4500 'a').drop 2000).take 2000⟩,
       ⟨"Appendix" ++ contSuffix, ((List.replicate 4500 'a').drop 4000).take 2000⟩] ∧
    ((appendixSlides "Appendix" (List.replicate 4500 'a')).map AppendixSlide.body).join
      = List.replicate 4500 'a' :=
  slide_appendix_json_chunking "Appendix" (List.replicate 4500 'a')
    (by rw [List.length_replicate])

/-! ## Claims C8, C9, C10 (deck builder) -/

lemma mem_flagKinds {j k : DeckKind} {c : Bool} :
    j ∈ flagKinds c k ↔ c = true ∧ j = k := by
  unfold flagKinds
  split <;> simp_all

lemma benchmark_not_mem_indKinds (x : Option IndVal) :
    DeckKind.benchmark ∉ indKinds x := by
  cases x with
  | none => simp [indKinds]
  | some iv =>
    simp only [indKinds]
    split_ifs <;> simp

/-- C8: a state whose Benchmark substructure has an empty or missing
table produces a deck with no benchmark slide (`build_ppt_from_state`
skips the section; the model is a total function, so no exception is
raised), and `slide_benchmark` itself returns `none` — no slide — on an
empty table. -/
theorem benchmark_empty_table_skipped (dumps : PState → List Char)
    (dateStr ymd : String) (state : PState) (company : String)
    (peersL : List String) (h : benchTableOf state.results.Benchmark = []) :
    DeckKind.benchmark ∉ (build_ppt_from_state dumps dateStr ymd state).kinds ∧
    slide_benchmark company ⟨peersL, []⟩ = none := by
  constructor
  · intro hmem
    unfold build_ppt_from_state at hmem
    simp only [h] at hmem
    simp [mem_flagKinds, flagKinds] at hmem
    exact benchmark_not_mem_indKinds state.results.ind hmem
  · rfl

/-- C9: `build_ppt_from_state` is structurally deterministic — two runs
on equal input (even at different clock times, which only affect the
subtitle and the filename date) produce decks with identical slide-kind
sequences and hence identical slide counts and section ordering. -/
theorem build_deck_structural_determinism (dumps : PState → List Char)
    (d1 y1 d2 y2 : String) (state : PState) :
    (build_ppt_from_state dumps d1 y1 state).kinds =
      (build_ppt_from_state dumps d2 y2 state).kinds ∧
    (build_ppt_from_state dumps d1 y1 state).kinds.length =
      (build_ppt_from_state dumps d2 y2 state).kinds.length :=
  ⟨rfl, rfl⟩

/-- C10: `build_ppt_from_state` substitutes the defaults "Company" and
"Product" for a missing, None or empty company/product entry (a provided
non-empty value is stripped of surrounding whitespace), and exactly these
substituted values appear in the title-slide text and in the returned
filename. -/
theorem blank_identity_defaults (dumps : PState → List Char)
    (dateStr ymd : String) (state : PState) (c p : String) :
    (state.company = none ∨ state.company = some "" →
      effCompany state = "Company") ∧
    (state.product = none ∨ state.product = some "" →
      effProduct state = "Product") ∧
    (state.company = some c → c ≠ "" → effCompany state = pyStrip c) ∧
    (state.product = some p → p ≠ "" → effProduct state = pyStrip p) ∧
    (build_ppt_from_state dumps dateStr ymd state).titleText =
      effProduct state ++ " × " ++ effCompany state ∧
    (build_ppt_from_state dumps dateStr ymd state).fname =
      (effCompany state).replace " " "_" ++ "_" ++
      (effProduct state).replace " " "_" ++ "_" ++ ymd ++ "_strategy.pptx" := by
  have hstripC : pyStrip "Company" = "Company" := by decide
  have hstripP : pyStrip "Product" = "Product" := by decide
  refine ⟨?_, ?_, ?_, ?_, rfl, rfl⟩
  · rintro (hc | hc) <;> simp [effCompany, pyOrS, hc, hstripC]
  · rintro (hp | hp) <;> simp [effProduct, pyOrS, hp, hstripP]
  · intro hc hne
    simp [effCompany, pyOrS, hc, hne]
  · intro hp hne
    simp [effProduct, pyOrS, hp, hne]

/-- Serialization stub for the C8 witness deck. -/
def dumpsB : PState → List Char := fun _ => []

/-- Concrete state for the C8 witness: Benchmark missing entirely. -/
def stateB : PState :=
  ⟨some "ACME", some "Sensors", [], ⟨none, none, none, none⟩, []⟩

theorem benchmark_empty_table_skipped_witness :
    DeckKind.benchmark ∉ (build_ppt_from_state dumpsB "d" "y" stateB).kinds ∧
    slide_benchmark "ACME" ⟨["Rival A"], []⟩ = none :=
  benchmark_empty_table_skipped dumpsB "d" "y" stateB "ACME" ["Rival A"] rfl

/-- Serialization stub for the C10 witness deck. -/
def dumpsW : PState → List Char := fun _ => []

/-- Concrete state for the C10 witness: company missing, product padded
with whitespace. -/
def stateW : PState :=
  ⟨none, some " Widget  ", [], ⟨none, none, none, none⟩, []⟩

theorem blank_identity_defaults_witness :
    effCompany stateW = "Company" ∧
    effProduct stateW = pyStrip " Widget  " ∧
    (build_ppt_from_state dumpsW "Jan 01, 2026" "20260101" stateW).titleText =
      effProduct stateW ++ " × " ++ effCompany stateW :=
  ⟨(blank_identity_defaults dumpsW "Jan 01, 2026" "20260101" stateW "x" " Widget  ").1
      (Or.inl rfl),
   (blank_identity_defaults dumpsW "Jan 01, 2026" "20260101" stateW "x" " Widget  ").2.2.2.1
      rfl (by decide),
   (blank_identity_defaults dumpsW "Jan 01, 2026" "20260101" stateW "x" " Widget  ").2.2.2.2.1⟩
